import Mathlib

/-!
Shallow embedding of the CTA Bus Tracker client (`frontend/src/views/BusView.jsx`
and `frontend/src/App.jsx`).

The component is a cascading dependent-query state machine: the rider picks a
route, then a direction, then a stop; each upstream selection triggers
asynchronous fetches for downstream collections.  We embed:

* the entity records with the field names the JSON payloads use
  (`rt`/`rtn`, `dir`, `stpid`/`stpnm`, `rt`/`rtdir`/`prdtm`,
  `vid`/`lat`/`lon`/`hdg`/`des`);
* the component state: the eleven `useState` hooks of `BusView`;
* every network-completion handler (`.then` body together with its `.catch`)
  as a pure function `AppState → FetchOutcome α → AppState`;
* the event-driven semantics as a small-step function `step : Sys → Event →
  Option Sys` over the component state extended with the multiset of in-flight
  requests, so that out-of-order network completion can be expressed.

Coordinates are modelled as rationals: the JSON carries them numeric-or-string
and the component parses them with `parseFloat` before geometric use, so the
embedding works directly with the parsed numeric value.
-/

namespace BusTracker

/-- A bus route as delivered by `/cta/bus/routes`: `{ rt, rtn }`. -/
structure BusRoute where
  rt : String
  rtn : String
deriving DecidableEq, Repr

/-- A direction as delivered by `/cta/bus/directions`: `{ dir }`. -/
structure BusDirection where
  dir : String
deriving DecidableEq, Repr

/-- A stop as delivered by `/cta/bus/stops`: `{ stpid, stpnm }`. -/
structure BusStop where
  stpid : String
  stpnm : String
deriving DecidableEq, Repr

/-- A prediction as delivered by `/cta/bus/predictions`: `{ rt, rtdir, prdtm }`. -/
structure BusPrediction where
  rt : String
  rtdir : String
  prdtm : String
deriving DecidableEq, Repr

/-- A vehicle as delivered by `/cta/bus/vehicles`: `{ vid, lat, lon, hdg, des }`.
Coordinates and heading are modelled as the parsed numeric values. -/
structure BusVehicle where
  vid : String
  lat : ℚ
  lon : ℚ
  hdg : ℚ
  des : String
deriving DecidableEq, Repr

/-- The rider location `{ lat, lon }` as stored in the `userLocation` hook. -/
structure UserLocation where
  lat : ℚ
  lon : ℚ
deriving DecidableEq, Repr

/-- The body found under the `bustime-response` envelope key of a response:
the collection field (`routes`, `directions`, `stops`, `vehicle`, `prd`) may
itself be absent. -/
structure BustimeBody (α : Type) where
  field : Option (List α)
deriving DecidableEq, Repr

/-- Outcome of one axios GET: either the promise rejects (transport error,
handled by `.catch`) or it resolves with `res.data` whose
`bustime-response` envelope may be present or absent. -/
inductive FetchOutcome (α : Type) where
  | transportError : FetchOutcome α
  | response : Option (BustimeBody α) → FetchOutcome α
deriving DecidableEq, Repr

/-- The eleven `useState` hooks of `BusView`, in source order. -/
structure AppState where
  routes : List BusRoute
  selectedRoute : String
  directions : List BusDirection
  direction : String
  stops : List BusStop
  selectedStop : String
  predictions : List BusPrediction
  vehicles : List BusVehicle
  predictionAttempted : Bool
  userLocation : Option UserLocation
  stopsLoaded : Bool
deriving DecidableEq, Repr

/-- The initial-mount value of every hook (`useState` initialisers). -/
def initState : AppState where
  routes := []
  selectedRoute := ""
  directions := []
  direction := ""
  stops := []
  selectedStop := ""
  predictions := []
  vehicles := []
  predictionAttempted := false
  userLocation := none
  stopsLoaded := false

/-- The hard-coded fallback coordinate used when geolocation fails
(`{ lat: 41.8781, lon: -87.6298 }`). -/
def fallbackLocation : UserLocation where
  lat := (418781 : ℚ) / 10000
  lon := -(876298 : ℚ) / 10000

/-- Completion handler of the mount-time routes fetch (lines 83-97).
The `.then` body reads the `routes` field under the envelope key with optional
chaining and checks `Array.isArray`, so a missing envelope or missing field
degrades to `[]` without throwing; `.catch` also sets `[]`. -/
def applyRoutes (st : AppState) : FetchOutcome BusRoute → AppState
  | .transportError => { st with routes := [] }
  | .response none => { st with routes := [] }
  | .response (some body) =>
    match body.field with
    | none => { st with routes := [] }
    | some rs => { st with routes := rs }

/-- Completion handler of the directions fetch issued by the
`[selectedRoute]` effect (lines 99-116).  The `.then` body evaluates
`directions || []` under the envelope key: when the envelope is absent
this throws before any state is written and control passes to `.catch`, which
sets `directions = []` only.  When the envelope is present the handler stores
the directions and then clears `direction, stops, selectedStop, predictions,
predictionAttempted, vehicles`. -/
def applyDirections (st : AppState) : FetchOutcome BusDirection → AppState
  | .transportError => { st with directions := [] }
  | .response none => { st with directions := [] }
  | .response (some body) =>
    { st with
      directions := body.field.getD []
      direction := ""
      stops := []
      selectedStop := ""
      predictions := []
      predictionAttempted := false
      vehicles := [] }

/-- Completion handler of the stops fetch issued by the
`[selectedRoute, direction]` effect (lines 122-130).  A missing envelope
throws in `.then` and lands in `.catch`; both the error path and the success
path end with `stopsLoaded = true`. -/
def applyStops (st : AppState) : FetchOutcome BusStop → AppState
  | .transportError => { st with stops := [], stopsLoaded := true }
  | .response none => { st with stops := [], stopsLoaded := true }
  | .response (some body) =>
    { st with stops := body.field.getD [], stopsLoaded := true }

/-- Completion handler of the vehicles fetch issued by the
`[selectedRoute, direction]` effect (lines 132-134): success stores
`vehicle || []` from under the envelope key, every failure stores `[]`.
No completion flag exists for this fetch. -/
def applyVehicles (st : AppState) : FetchOutcome BusVehicle → AppState
  | .transportError => { st with vehicles := [] }
  | .response none => { st with vehicles := [] }
  | .response (some body) =>
    { st with vehicles := body.field.getD [] }

/-- Completion handler of the predictions fetch issued by `getPredictions`
(lines 142-151).  Success stores `prd || []` from under the envelope key and
sets `predictionAttempted = true`; a transport error or missing envelope
reaches `.catch`, which only logs — no state is written. -/
def applyPredictions (st : AppState) : FetchOutcome BusPrediction → AppState
  | .transportError => st
  | .response none => st
  | .response (some body) =>
    { st with predictions := body.field.getD [], predictionAttempted := true }

/-- Completion handler of the mount-time geolocation request (lines 68-81):
success stores the reported coordinate; failure stores the fixed fallback. -/
def applyGeolocation (st : AppState) : Option UserLocation → AppState
  | some pos => { st with userLocation := some pos }
  | none => { st with userLocation := some fallbackLocation }

/-- `resetApp` (lines 153-164): clears the ten selection/collection/flag
hooks in one event handler.  `routes` is not touched. -/
def resetApp (st : AppState) : AppState :=
  { st with
    selectedRoute := ""
    directions := []
    direction := ""
    stops := []
    selectedStop := ""
    predictions := []
    vehicles := []
    predictionAttempted := false
    userLocation := none
    stopsLoaded := false }

/-- JavaScript `parseInt` restricted to the non-negative decimal case: the
longest leading digit run, `none` when there is none (`NaN`). -/
def jsParseInt (str : String) : Option Nat :=
  let digits := str.toList.takeWhile Char.isDigit
  if digits.isEmpty then none
  else some (digits.foldl (fun n c => n * 10 + (c.toNat - 48)) 0)

/-- JavaScript `String.prototype.split` with a single-character separator,
on the underlying character list: `"a b"` gives `["a", "b"]`, an empty
string gives `[""]`, a trailing separator yields a trailing empty group. -/
def splitOnChar (sep : Char) : List Char → List (List Char)
  | [] => [[]]
  | c :: cs =>
    if c = sep then [] :: splitOnChar sep cs
    else
      match splitOnChar sep cs with
      | [] => [[c]]
      | g :: gs => (c :: g) :: gs

/-- JavaScript `s.split(sep)` for a single-character separator. -/
def jsSplit (sep : Char) (s : String) : List String :=
  (splitOnChar sep s.toList).map String.mk

/-- `formatTime` (lines 26-33): split the timestamp on a space, take the
second part, split it on a colon into hour and minute, and rebuild a
12-hour rendering with AM/PM; the minute substring is reused verbatim.
Inputs on which the JavaScript would fault (no time part) or produce a
`NaN` hour are modelled as `none`. -/
def formatTime (timestamp : String) : Option String :=
  match (jsSplit ' ' timestamp).get? 1 with
  | none => none
  | some time =>
    match (jsSplit ':' time).get? 0, (jsSplit ':' time).get? 1 with
    | some hour, some minute =>
      match jsParseInt hour with
      | none => none
      | some h =>
        let suffix := if h ≥ 12 then "PM" else "AM"
        let formattedHour := if h % 12 = 0 then 12 else h % 12
        some (toString formattedHour ++ ":" ++ minute ++ " " ++ suffix)
    | _, _ => none

/-- An axis-aligned latitude/longitude box, as built by `L.latLngBounds`. -/
structure LatLngBounds where
  minLat : ℚ
  maxLat : ℚ
  minLon : ℚ
  maxLon : ℚ
deriving DecidableEq, Repr

/-- The viewport request passed to `map.fitBounds(bounds, { padding: [50, 50] })`:
the bounding box together with the fixed pixel padding. -/
structure FitRequest where
  bounds : LatLngBounds
  padding : Nat × Nat
deriving DecidableEq, Repr

/-- Extend a bounding box to cover one more `(lat, lon)` point. -/
def extendBounds (b : LatLngBounds) (q : ℚ × ℚ) : LatLngBounds where
  minLat := min b.minLat q.1
  maxLat := max b.maxLat q.1
  minLon := min b.minLon q.2
  maxLon := max b.maxLon q.2

/-- `L.latLngBounds` over a non-empty point list: the smallest box covering
the seed point and all remaining points. -/
def boundsOfPoints (p : ℚ × ℚ) (ps : List (ℚ × ℚ)) : LatLngBounds :=
  ps.foldl extendBounds ⟨p.1, p.1, p.2, p.2⟩

/-- The `FitBounds` effect (lines 36-51): when `buses` is empty or
`userLocation` is not set it returns without requesting a viewport change;
otherwise it fits the map to `L.latLngBounds` of every bus coordinate plus
the user coordinate, with padding `[50, 50]`. -/
def fitBounds (buses : List BusVehicle) (userLocation : Option UserLocation) :
    Option FitRequest :=
  match userLocation with
  | none => none
  | some u =>
    match buses with
    | [] => none
    | b :: bs =>
      some ⟨boundsOfPoints (b.lat, b.lon)
              (bs.map (fun v => (v.lat, v.lon)) ++ [(u.lat, u.lon)]), (50, 50)⟩

/-- Render condition of the stop dropdown (lines 203-218): a stop list is on
screen exactly when a direction is selected and `stops` is non-empty. -/
def showsStopList (st : AppState) : Bool :=
  decide (st.direction ≠ "") && !st.stops.isEmpty

/-- Render condition of the "No stop data available" message (lines 219-225):
shown exactly when a direction is selected, `stops` is empty and
`stopsLoaded` is true. -/
def showsNoStopData (st : AppState) : Bool :=
  decide (st.direction ≠ "") && st.stops.isEmpty && st.stopsLoaded

/-!
## Event-driven semantics

The component runs single-threaded: user events and network completions are
interleaved in some order, but each handler body runs atomically.  `Sys`
extends the component state with the in-flight requests; `step` executes one
event, returning `none` for events that cannot occur (a completion with no
matching in-flight request, or selecting an option the dropdown does not
offer).  React re-runs a `useEffect` only when a listed dependency changed,
so a select event carrying the already-current value leaves the system
unchanged.

In-flight directions fetches are tagged with the `rt` query parameter they
were issued for, so that the fate of a superseded fetch can be stated; the
other fetches carry no data the handlers consult, so a count suffices.
-/

/-- The component state together with the multiset of in-flight requests. -/
structure Sys where
  st : AppState
  pendingRoutes : Nat
  pendingGeo : Nat
  pendingDirections : List String
  pendingStops : Nat
  pendingVehicles : Nat
  pendingPredictions : Nat
deriving DecidableEq, Repr

/-- At mount the component issues one geolocation request and one routes
fetch (the two `[]`-dependency effects). -/
def initSys : Sys where
  st := initState
  pendingRoutes := 1
  pendingGeo := 1
  pendingDirections := []
  pendingStops := 0
  pendingVehicles := 0
  pendingPredictions := 0

/-- One observable event: a user interaction or a network completion. -/
inductive Event where
  | routesArrive (res : FetchOutcome BusRoute)
  | geoArrive (pos : Option UserLocation)
  | selectRoute (r : String)
  | directionsArrive (forRoute : String) (res : FetchOutcome BusDirection)
  | selectDirection (d : String)
  | stopsArrive (res : FetchOutcome BusStop)
  | vehiclesArrive (res : FetchOutcome BusVehicle)
  | selectStop (sid : String)
  | clickGetPredictions
  | predictionsArrive (res : FetchOutcome BusPrediction)
  | clickReset
deriving DecidableEq, Repr

/-- Remove the first occurrence of `tag`; `none` when it is absent. -/
def removeOne (tag : String) : List String → Option (List String)
  | [] => none
  | x :: xs =>
    if x = tag then some xs
    else (removeOne tag xs).map (x :: ·)

/-- The route dropdown (lines 179-184): `onChange` stores the chosen value,
then the `[selectedRoute]` effect fires (when the value changed) and, for a
non-empty route, issues the directions fetch; the `[selectedRoute, direction]`
effect also fires and, when the (old, not yet cleared) direction is non-empty
too, starts a stops fetch and a vehicles fetch and synchronously clears
`selectedStop, predictions, predictionAttempted` and resets `stopsLoaded`. -/
def selectRouteStep (s : Sys) (r : String) : Option Sys :=
  if r = s.st.selectedRoute then some s
  else if r = "" ∨ r ∈ s.st.routes.map BusRoute.rt then
    let oldDir := s.st.direction
    let s₁ : Sys := { s with st := { s.st with selectedRoute := r } }
    let s₂ : Sys :=
      if r = "" then s₁
      else { s₁ with pendingDirections := r :: s₁.pendingDirections }
    if r ≠ "" ∧ oldDir ≠ "" then
      some { s₂ with
        st := { s₂.st with
          stopsLoaded := false
          selectedStop := ""
          predictions := []
          predictionAttempted := false }
        pendingStops := s₂.pendingStops + 1
        pendingVehicles := s₂.pendingVehicles + 1 }
    else some s₂
  else none

/-- The direction dropdown (lines 190-200), rendered only when `directions`
is non-empty: `onChange` stores the value, then the
`[selectedRoute, direction]` effect fires and, when route and direction are
both non-empty, issues the stops and vehicles fetches and synchronously
clears `selectedStop, predictions, predictionAttempted`, resetting
`stopsLoaded` first. -/
def selectDirectionStep (s : Sys) (d : String) : Option Sys :=
  if s.st.directions.isEmpty then none
  else if d = s.st.direction then some s
  else if d = "" ∨ d ∈ s.st.directions.map BusDirection.dir then
    let s₁ : Sys := { s with st := { s.st with direction := d } }
    if s.st.selectedRoute ≠ "" ∧ d ≠ "" then
      some { s₁ with
        st := { s₁.st with
          stopsLoaded := false
          selectedStop := ""
          predictions := []
          predictionAttempted := false }
        pendingStops := s₁.pendingStops + 1
        pendingVehicles := s₁.pendingVehicles + 1 }
    else some s₁
  else none

/-- Execute one event.  Completion events are valid only while a matching
request is in flight; a directions completion is applied whatever route it
was issued for — the handler performs no staleness check. -/
def step (s : Sys) : Event → Option Sys
  | .routesArrive res =>
    if s.pendingRoutes = 0 then none
    else some { s with st := applyRoutes s.st res, pendingRoutes := s.pendingRoutes - 1 }
  | .geoArrive pos =>
    if s.pendingGeo = 0 then none
    else some { s with st := applyGeolocation s.st pos, pendingGeo := s.pendingGeo - 1 }
  | .selectRoute r => selectRouteStep s r
  | .directionsArrive forRoute res =>
    match removeOne forRoute s.pendingDirections with
    | none => none
    | some pd => some { s with st := applyDirections s.st res, pendingDirections := pd }
  | .selectDirection d => selectDirectionStep s d
  | .stopsArrive res =>
    if s.pendingStops = 0 then none
    else some { s with st := applyStops s.st res, pendingStops := s.pendingStops - 1 }
  | .vehiclesArrive res =>
    if s.pendingVehicles = 0 then none
    else some { s with st := applyVehicles s.st res, pendingVehicles := s.pendingVehicles - 1 }
  | .selectStop sid =>
    if sid = s.st.selectedStop then some s
    else if sid = "" ∨ sid ∈ s.st.stops.map BusStop.stpid then
      some { s with st := { s.st with selectedStop := sid } }
    else none
  | .clickGetPredictions =>
    if s.st.selectedStop = "" then some s
    else some { s with pendingPredictions := s.pendingPredictions + 1 }
  | .predictionsArrive res =>
    if s.pendingPredictions = 0 then none
    else some { s with st := applyPredictions s.st res,
                       pendingPredictions := s.pendingPredictions - 1 }
  | .clickReset => some { s with st := resetApp s.st }

/-- Run a sequence of events. -/
def run (s : Sys) : List Event → Option Sys
  | [] => some s
  | e :: es => (step s e).bind (fun s₁ => run s₁ es)

/-!
## Theorems
-/

/-- Claim C8: `formatTime` converts a `"<date> <H:MM>"` 24-hour timestamp to
12-hour time with AM/PM, keeping the minute string as received: hour `0`
renders as `12 AM`, `13:30` as `1:30 PM`, `12:00` as `12:00 PM`, and a
single-digit hour is not re-padded. -/
theorem c8_formatTime_examples :
    formatTime "12/25 0:05" = some "12:05 AM" ∧
    formatTime "12/25 13:30" = some "1:30 PM" ∧
    formatTime "12/25 12:00" = some "12:00 PM" ∧
    formatTime "12/25 9:05" = some "9:05 AM" := by
  refine ⟨?_, ?_, ?_, ?_⟩ <;> decide

/-- Claim C3 counterexample: the claim includes `predictions` among the
collections that are "set to the empty sequence" on a transport error, but
the predictions `.catch` only logs: starting from a state holding one
prediction, a failed predictions fetch leaves that prediction in place. -/
theorem c3_predictions_survive_error :
    (applyPredictions
        { initState with predictions := [⟨"22", "Northbound", "12/25 14:10"⟩] }
        FetchOutcome.transportError).predictions
      = [⟨"22", "Northbound", "12/25 14:10"⟩] ∧
    ([⟨"22", "Northbound", "12/25 14:10"⟩] : List BusPrediction) ≠ [] := by
  exact ⟨rfl, by decide⟩

/-- Claim C3 as amended: for routes, directions, stops and vehicles a
transport error, a missing envelope, or a missing collection field degrades
to the empty sequence; for predictions only a present envelope with a
missing `prd` field yields the empty sequence, while a transport error or a
missing envelope leaves the whole state unchanged (the error is only
logged).  Every handler is a total function, so no exception reaches the
display layer. -/
theorem c3_errors_degrade_to_empty :
    ∀ st : AppState,
      ((applyRoutes st .transportError).routes = [] ∧
       (applyRoutes st (.response none)).routes = [] ∧
       (applyRoutes st (.response (some ⟨none⟩))).routes = []) ∧
      ((applyDirections st .transportError).directions = [] ∧
       (applyDirections st (.response none)).directions = [] ∧
       (applyDirections st (.response (some ⟨none⟩))).directions = []) ∧
      ((applyStops st .transportError).stops = [] ∧
       (applyStops st (.response none)).stops = [] ∧
       (applyStops st (.response (some ⟨none⟩))).stops = []) ∧
      ((applyVehicles st .transportError).vehicles = [] ∧
       (applyVehicles st (.response none)).vehicles = [] ∧
       (applyVehicles st (.response (some ⟨none⟩))).vehicles = []) ∧
      (applyPredictions st .transportError = st ∧
       applyPredictions st (.response none) = st ∧
       (applyPredictions st (.response (some ⟨none⟩))).predictions = []) := by
  intro st
  refine ⟨⟨rfl, rfl, rfl⟩, ⟨rfl, rfl, rfl⟩, ⟨rfl, rfl, rfl⟩, ⟨rfl, rfl, rfl⟩,
    rfl, rfl, rfl⟩

/-- Claim C5: prediction fetching is manual only — no event other than the
"Get Predictions" click ever starts a predictions fetch; clicking with an
empty stop is a no-op; a well-shaped response replaces `predictions` and
sets `predictionAttempted`; a failed fetch leaves the whole state
unchanged, so a previously fetched list stays visible. -/
theorem c5_predictions_manual_and_atomic :
    (∀ s : Sys, s.st.selectedStop = "" → step s Event.clickGetPredictions = some s) ∧
    (∀ (st : AppState) (ps : List BusPrediction),
      applyPredictions st (.response (some ⟨some ps⟩)) =
        { st with predictions := ps, predictionAttempted := true }) ∧
    (∀ st : AppState,
      applyPredictions st .transportError = st ∧
      applyPredictions st (.response none) = st) ∧
    (∀ (s : Sys) (e : Event) (s₁ : Sys), e ≠ Event.clickGetPredictions →
      step s e = some s₁ → s₁.pendingPredictions ≤ s.pendingPredictions) := by
  refine ⟨fun s h => by simp [step, h], fun st ps => rfl, fun st => ⟨rfl, rfl⟩,
    fun s e s₁ hne h => ?_⟩
  cases e <;>
    first
      | exact absurd rfl hne
      | (simp only [step, selectRouteStep, selectDirectionStep] at h
         repeat' split at h
         all_goals
           first
             | exact Option.noConfusion h
             | (cases h; exact Nat.le_refl _)
             | (cases h; exact Nat.sub_le _ _))

/-- Witness for the theorem of claim C5 at a concrete input: at mount no stop is
selected, so clicking "Get Predictions" changes nothing. -/
theorem c5_predictions_witness :
    step initSys Event.clickGetPredictions = some initSys :=
  c5_predictions_manual_and_atomic.1 initSys rfl

/-- Claim C6: `resetApp` is one event handler (a single observable
transition) and returns every selection, derived collection, the user
location and both flags to their initial-mount values; `routes` (set once
per session load and not part of the claim) is the only surviving field. -/
theorem c6_reset_restores_initial_state :
    ∀ s : Sys,
      step s Event.clickReset = some { s with st := resetApp s.st } ∧
      resetApp s.st = { initState with routes := s.st.routes } ∧
      ((resetApp s.st).selectedRoute = initState.selectedRoute ∧
       (resetApp s.st).direction = initState.direction ∧
       (resetApp s.st).selectedStop = initState.selectedStop ∧
       (resetApp s.st).directions = initState.directions ∧
       (resetApp s.st).stops = initState.stops ∧
       (resetApp s.st).predictions = initState.predictions ∧
       (resetApp s.st).vehicles = initState.vehicles ∧
       (resetApp s.st).userLocation = initState.userLocation ∧
       (resetApp s.st).stopsLoaded = initState.stopsLoaded ∧
       (resetApp s.st).predictionAttempted = initState.predictionAttempted) := by
  intro s
  refine ⟨rfl, ?_, rfl, rfl, rfl, rfl, rfl, rfl, rfl, rfl, rfl, rfl⟩
  cases s.st
  rfl

/-- Folding `extendBounds` over any point list only enlarges the box. -/
theorem foldl_extendBounds_mono (qs : List (ℚ × ℚ)) :
    ∀ b : LatLngBounds,
      (qs.foldl extendBounds b).minLat ≤ b.minLat ∧
      b.maxLat ≤ (qs.foldl extendBounds b).maxLat ∧
      (qs.foldl extendBounds b).minLon ≤ b.minLon ∧
      b.maxLon ≤ (qs.foldl extendBounds b).maxLon := by
  induction qs with
  | nil => exact fun b => ⟨le_refl _, le_refl _, le_refl _, le_refl _⟩
  | cons q qs ih =>
    intro b
    have h := ih (extendBounds b q)
    simp only [List.foldl_cons]
    exact ⟨h.1.trans (min_le_left _ _), (le_max_left _ _).trans h.2.1,
      h.2.2.1.trans (min_le_left _ _), (le_max_left _ _).trans h.2.2.2⟩

/-- Every folded point lies inside the resulting box. -/
theorem foldl_extendBounds_covers (qs : List (ℚ × ℚ)) :
    ∀ b : LatLngBounds, ∀ q ∈ qs,
      (qs.foldl extendBounds b).minLat ≤ q.1 ∧ q.1 ≤ (qs.foldl extendBounds b).maxLat ∧
      (qs.foldl extendBounds b).minLon ≤ q.2 ∧ q.2 ≤ (qs.foldl extendBounds b).maxLon := by
  induction qs with
  | nil => intro b q hq; cases hq
  | cons p ps ih =>
    intro b q hq
    simp only [List.foldl_cons]
    rcases List.mem_cons.mp hq with h | h
    · subst h
      have hm := foldl_extendBounds_mono ps (extendBounds b q)
      exact ⟨hm.1.trans (min_le_right _ _), (le_max_right _ _).trans hm.2.1,
        hm.2.2.1.trans (min_le_right _ _), (le_max_right _ _).trans hm.2.2.2⟩
    · exact ih (extendBounds b p) q h

/-- Minimality of the fold: a box covering the seed box and every point
covers the folded box. -/
theorem foldl_extendBounds_minimal (qs : List (ℚ × ℚ)) :
    ∀ (b : LatLngBounds) (lo₁ hi₁ lo₂ hi₂ : ℚ),
      lo₁ ≤ b.minLat → b.maxLat ≤ hi₁ → lo₂ ≤ b.minLon → b.maxLon ≤ hi₂ →
      (∀ q ∈ qs, lo₁ ≤ q.1 ∧ q.1 ≤ hi₁ ∧ lo₂ ≤ q.2 ∧ q.2 ≤ hi₂) →
      lo₁ ≤ (qs.foldl extendBounds b).minLat ∧
      (qs.foldl extendBounds b).maxLat ≤ hi₁ ∧
      lo₂ ≤ (qs.foldl extendBounds b).minLon ∧
      (qs.foldl extendBounds b).maxLon ≤ hi₂ := by
  induction qs with
  | nil => exact fun b lo₁ hi₁ lo₂ hi₂ h₁ h₂ h₃ h₄ _ => ⟨h₁, h₂, h₃, h₄⟩
  | cons p ps ih =>
    intro b lo₁ hi₁ lo₂ hi₂ h₁ h₂ h₃ h₄ hq
    have hp := hq p (List.mem_cons_self _ _)
    simp only [List.foldl_cons]
    exact ih (extendBounds b p) lo₁ hi₁ lo₂ hi₂
      (le_min h₁ hp.1) (max_le h₂ hp.2.1) (le_min h₃ hp.2.2.1) (max_le h₄ hp.2.2.2)
      (fun q hq₁ => hq q (List.mem_cons_of_mem _ hq₁))

/-- Claim C7: the viewport fit is a function of `(vehicles, userLocation)`
returning `none` when the vehicle list is empty or the location is unset;
otherwise it requests the smallest axis-aligned box covering every vehicle
coordinate and the user coordinate, with the fixed `[50, 50]` padding; in
particular one vehicle at `(1,1)` with the user at `(1,1)` gives the
degenerate box at `(1,1)` with that padding. -/
theorem c7_fitBounds_spec :
    (∀ u, fitBounds [] u = none) ∧
    (∀ vs, fitBounds vs none = none) ∧
    (∀ (vs : List BusVehicle) (u : UserLocation) (req : FitRequest),
      fitBounds vs (some u) = some req →
      req.padding = (50, 50) ∧
      (∀ v ∈ vs,
        req.bounds.minLat ≤ v.lat ∧ v.lat ≤ req.bounds.maxLat ∧
        req.bounds.minLon ≤ v.lon ∧ v.lon ≤ req.bounds.maxLon) ∧
      (req.bounds.minLat ≤ u.lat ∧ u.lat ≤ req.bounds.maxLat ∧
       req.bounds.minLon ≤ u.lon ∧ u.lon ≤ req.bounds.maxLon) ∧
      (∀ lo₁ hi₁ lo₂ hi₂ : ℚ,
        (∀ v ∈ vs, lo₁ ≤ v.lat ∧ v.lat ≤ hi₁ ∧ lo₂ ≤ v.lon ∧ v.lon ≤ hi₂) →
        lo₁ ≤ u.lat → u.lat ≤ hi₁ → lo₂ ≤ u.lon → u.lon ≤ hi₂ →
        lo₁ ≤ req.bounds.minLat ∧ req.bounds.maxLat ≤ hi₁ ∧
        lo₂ ≤ req.bounds.minLon ∧ req.bounds.maxLon ≤ hi₂)) ∧
    fitBounds [⟨"101", 1, 1, 0, "X"⟩] (some ⟨1, 1⟩) =
      some ⟨⟨1, 1, 1, 1⟩, (50, 50)⟩ := by
  refine ⟨fun u => by cases u <;> rfl, fun vs => rfl, ?_, by decide⟩
  intro vs u req h
  cases vs with
  | nil => exact Option.noConfusion h
  | cons b bs =>
    simp only [fitBounds, Option.some.injEq] at h
    subst h
    simp only [boundsOfPoints]
    set pts := bs.map (fun v => (v.lat, v.lon)) ++ [(u.lat, u.lon)] with hpts
    set seed : LatLngBounds := ⟨b.lat, b.lat, b.lon, b.lon⟩ with hseed
    refine ⟨by trivial, ?_, ?_, ?_⟩
    · intro v hv
      rcases List.mem_cons.mp hv with hvb | hvm
      · subst hvb
        exact foldl_extendBounds_mono pts seed
      · have : (v.lat, v.lon) ∈ pts :=
          List.mem_append_left _ (List.mem_map.mpr ⟨v, hvm, rfl⟩)
        exact foldl_extendBounds_covers pts seed (v.lat, v.lon) this
    · have : (u.lat, u.lon) ∈ pts :=
        List.mem_append_right _ (List.mem_singleton.mpr rfl)
      exact foldl_extendBounds_covers pts seed (u.lat, u.lon) this
    · intro lo₁ hi₁ lo₂ hi₂ hv hu₁ hu₂ hu₃ hu₄
      have hb := hv b (List.mem_cons_self _ _)
      refine foldl_extendBounds_minimal pts seed lo₁ hi₁ lo₂ hi₂
        hb.1 hb.2.1 hb.2.2.1 hb.2.2.2 ?_
      intro q hq
      rcases List.mem_append.mp hq with hm | hs
      · obtain ⟨v, hvmem, rfl⟩ := List.mem_map.mp hm
        exact hv v (List.mem_cons_of_mem _ hvmem)
      · rw [List.mem_singleton.mp hs]
        exact ⟨hu₁, hu₂, hu₃, hu₄⟩

/-- Witness for the theorem of claim C7: the conditional clause applied at the
concrete one-vehicle input of the claim. -/
theorem c7_fitBounds_witness :
    ((⟨⟨1, 1, 1, 1⟩, (50, 50)⟩ : FitRequest).padding = (50, 50)) ∧
    ((⟨⟨1, 1, 1, 1⟩, (50, 50)⟩ : FitRequest).bounds.minLat ≤ (1 : ℚ)) := by
  have h := c7_fitBounds_spec.2.2.1 [⟨"101", 1, 1, 0, "X"⟩] ⟨1, 1⟩
    ⟨⟨1, 1, 1, 1⟩, (50, 50)⟩ (by decide)
  exact ⟨h.1, h.2.2.1.1⟩

/-- Claim C10: selecting the `--Select--` placeholder (the empty route
value) only stores the empty route: no directions fetch is issued, nothing
is cleared, and every other field — in particular `direction, selectedStop,
directions, stops, predictions, vehicles` — and every pending-request
counter keeps its previous value. -/
theorem c10_empty_route_is_frame :
    ∀ s : Sys,
      step s (Event.selectRoute "") =
        some { s with st := { s.st with selectedRoute := "" } } := by
  intro s
  simp only [step, selectRouteStep]
  by_cases h : "" = s.st.selectedRoute
  · simp only [h, if_pos rfl]
    obtain ⟨st, p₁, p₂, p₃, p₄, p₅, p₆⟩ := s
    obtain ⟨f₁, f₂, f₃, f₄, f₅, f₆, f₇, f₈, f₉, f₁₀, f₁₁⟩ := st
    simp_all
  · simp [h]

/-- Characterization of a route change: selecting a non-empty route `r`
different from the current one stores `r`, enqueues a directions fetch
tagged `r`, and — only when the old direction was non-empty, via the
`[selectedRoute, direction]` effect — clears `selectedStop, predictions,
predictionAttempted`, resets `stopsLoaded` and enqueues stops and vehicles
fetches.  Nothing else changes; in particular `directions, direction,
stops, vehicles` are untouched. -/
theorem selectRoute_effect (s : Sys) (r : String) (s₁ : Sys)
    (h : step s (Event.selectRoute r) = some s₁) (hr : r ≠ "")
    (hne : r ≠ s.st.selectedRoute) :
    s₁ = if s.st.direction = "" then
      { s with
          st := { s.st with selectedRoute := r },
          pendingDirections := r :: s.pendingDirections }
    else
      { s with
          st := { s.st with
                    selectedRoute := r, stopsLoaded := false, selectedStop := "",
                    predictions := [], predictionAttempted := false },
          pendingDirections := r :: s.pendingDirections,
          pendingStops := s.pendingStops + 1,
          pendingVehicles := s.pendingVehicles + 1 } := by
  simp only [step, selectRouteStep, if_neg hne, if_neg hr] at h
  split at h
  · by_cases hd : s.st.direction = ""
    · rw [if_neg (fun hc => hc.2 hd)] at h
      cases h
      rw [if_pos hd]
    · rw [if_pos ⟨hr, hd⟩] at h
      cases h
      rw [if_neg hd]
  · exact Option.noConfusion h

/-- Characterization of a direction change: selecting a non-empty direction
`d` different from the current one, with a route selected, stores `d`,
resets `stopsLoaded`, clears `selectedStop, predictions,
predictionAttempted` and enqueues one stops fetch and one vehicles fetch.
`stops` and `vehicles` themselves are not cleared. -/
theorem selectDirection_effect (s : Sys) (d : String) (s₁ : Sys)
    (h : step s (Event.selectDirection d) = some s₁) (hd : d ≠ "")
    (hne : d ≠ s.st.direction) (hr : s.st.selectedRoute ≠ "") :
    s₁ = { s with
             st := { s.st with
                       direction := d, stopsLoaded := false, selectedStop := "",
                       predictions := [], predictionAttempted := false },
             pendingStops := s.pendingStops + 1,
             pendingVehicles := s.pendingVehicles + 1 } := by
  simp only [step, selectDirectionStep, if_neg hne] at h
  split at h
  · exact Option.noConfusion h
  · split at h
    · rw [if_pos ⟨hr, hd⟩] at h
      cases h
      rfl
    · exact Option.noConfusion h

/-- Claim C1 is required by the spec but fails on the code: the directions
completion handler applies its result without comparing the route of the
fetch against the current selection.  In this trace route "22" is selected, then
route "8"; the directions response for route 8 is applied, and then the
stale response for route 22 arrives and overwrites `directions` while `selectedRoute`
is still "8" — the superseded result populates the collection. -/
theorem c1_stale_directions_overwrite :
    (run initSys
      [Event.routesArrive (.response (some ⟨some [⟨"22", "Clark"⟩, ⟨"8", "Halsted"⟩]⟩)),
       Event.selectRoute "22",
       Event.selectRoute "8",
       Event.directionsArrive "8" (.response (some ⟨some [⟨"Northbound"⟩]⟩)),
       Event.directionsArrive "22" (.response (some ⟨some [⟨"Eastbound"⟩]⟩))]).map
      (fun s => (s.st.selectedRoute, s.st.directions))
      = some ("8", [⟨"Eastbound"⟩]) := by
  decide

/-- Claim C2 counterexample: the clearing of dependent state lives inside
the success handler of the directions fetch, not in `setRoute` itself.
Immediately after the final `selectRoute "8"` — its directions fetch still
pending — the old direction "Northbound", the old stop list and the old
vehicle list are all still present, contradicting the claim that they are
empty as soon as the call returns. -/
theorem c2_route_change_clears_nothing_synchronously :
    (run initSys
      [Event.routesArrive (.response (some ⟨some [⟨"22", "Clark"⟩, ⟨"8", "Halsted"⟩]⟩)),
       Event.selectRoute "22",
       Event.directionsArrive "22" (.response (some ⟨some [⟨"Northbound"⟩]⟩)),
       Event.selectDirection "Northbound",
       Event.stopsArrive (.response (some ⟨some [⟨"1", "Clark and Howard"⟩]⟩)),
       Event.vehiclesArrive (.response (some ⟨some [⟨"101", 41, -87, 90, "Howard"⟩]⟩)),
       Event.selectRoute "8"]).map
      (fun s => (s.st.selectedRoute, s.st.direction, s.st.stops.isEmpty,
                 s.st.vehicles.isEmpty, s.pendingDirections))
      = some ("8", "Northbound", false, false, ["8"]) := by
  decide

/-- Claim C2 as amended: `setRoute(r)` for a changed non-empty `r` only
stores the route and starts the directions fetch; `directions, direction,
stops, vehicles` keep their values at that moment (when the old direction
was non-empty, the second effect does clear `selectedStop, predictions,
predictionAttempted` synchronously).  The dependent state is cleared when
the directions fetch returns a well-shaped response; a failed fetch clears
only `directions`. -/
theorem c2_amended_clearing_is_asynchronous :
    (∀ (s : Sys) (r : String) (s₁ : Sys),
      step s (Event.selectRoute r) = some s₁ → r ≠ "" → r ≠ s.st.selectedRoute →
      s₁.st.selectedRoute = r ∧
      s₁.pendingDirections = r :: s.pendingDirections ∧
      s₁.st.directions = s.st.directions ∧
      s₁.st.direction = s.st.direction ∧
      s₁.st.stops = s.st.stops ∧
      s₁.st.vehicles = s.st.vehicles ∧
      (s.st.direction ≠ "" →
        s₁.st.selectedStop = "" ∧ s₁.st.predictions = [] ∧
        s₁.st.predictionAttempted = false) ∧
      (s.st.direction = "" →
        s₁.st.selectedStop = s.st.selectedStop ∧
        s₁.st.predictions = s.st.predictions ∧
        s₁.st.predictionAttempted = s.st.predictionAttempted)) ∧
    (∀ (st : AppState) (body : BustimeBody BusDirection),
      applyDirections st (.response (some body)) =
        { st with directions := body.field.getD [], direction := "", stops := [],
                  selectedStop := "", predictions := [], predictionAttempted := false,
                  vehicles := [] }) ∧
    (∀ st : AppState, applyDirections st .transportError = { st with directions := [] }) := by
  refine ⟨?_, fun st body => rfl, fun st => rfl⟩
  intro s r s₁ h hr hne
  rw [selectRoute_effect s r s₁ h hr hne]
  by_cases hd : s.st.direction = ""
  · rw [if_pos hd]
    exact ⟨rfl, rfl, rfl, rfl, rfl, rfl, fun hc => absurd hd hc, fun _ => ⟨rfl, rfl, rfl⟩⟩
  · rw [if_neg hd]
    exact ⟨rfl, rfl, rfl, rfl, rfl, rfl, fun _ => ⟨rfl, rfl, rfl⟩, fun hc => absurd hc hd⟩

/-- Witness for the amended theorem of claim C2: its route-change clause applied
to the concrete state reached after the routes fetch, selecting "22". -/
theorem c2_amended_witness :
    ("22" : String) = "22" ∧ ([] : List BusDirection) = [] :=
  have h := c2_amended_clearing_is_asynchronous.1
    { initSys with st := { initState with routes := [⟨"22", "Clark"⟩] } } "22"
    { initSys with
        st := { initState with routes := [⟨"22", "Clark"⟩], selectedRoute := "22" },
        pendingDirections := ["22"] }
    (by decide) (by decide) (by decide)
  ⟨h.1, h.2.2.1⟩

/-- Claim C4 counterexample: a failed vehicles fetch empties `vehicles`,
but no "fetch completed" flag accompanies it — the component tracks a
completion flag (`stopsLoaded`) for the stops fetch only, and it is still
false here because the stops fetch is still pending. -/
theorem c4_vehicles_failure_sets_no_flag :
    (run initSys
      [Event.routesArrive (.response (some ⟨some [⟨"22", "Clark"⟩]⟩)),
       Event.selectRoute "22",
       Event.directionsArrive "22" (.response (some ⟨some [⟨"Northbound"⟩]⟩)),
       Event.selectDirection "Northbound",
       Event.vehiclesArrive FetchOutcome.transportError]).map
      (fun s => (s.st.vehicles.isEmpty, s.st.stopsLoaded, s.pendingStops))
      = some (true, false, 1) := by
  decide

/-- Claim C4 as amended: `setDirection(d)` with a route set issues two
independent fetches; the stops handler never touches `vehicles` and the
vehicles handler never touches `stops` or `stopsLoaded`, so either fetch
may fail with no cross-effect; a stops failure yields the empty list with
`stopsLoaded = true`, while a vehicles failure yields the empty list alone
— no completion flag exists for the vehicles fetch. -/
theorem c4_amended_independent_fetches :
    (∀ (s : Sys) (d : String) (s₁ : Sys),
      step s (Event.selectDirection d) = some s₁ → d ≠ "" → d ≠ s.st.direction →
      s.st.selectedRoute ≠ "" →
      s₁.pendingStops = s.pendingStops + 1 ∧
      s₁.pendingVehicles = s.pendingVehicles + 1) ∧
    (∀ (st : AppState) (res : FetchOutcome BusStop),
      (applyStops st res).vehicles = st.vehicles ∧
      (applyStops st res).predictions = st.predictions) ∧
    (∀ (st : AppState) (res : FetchOutcome BusVehicle),
      (applyVehicles st res).stops = st.stops ∧
      (applyVehicles st res).stopsLoaded = st.stopsLoaded ∧
      (applyVehicles st res).predictions = st.predictions) ∧
    (∀ st : AppState,
      applyStops st .transportError = { st with stops := [], stopsLoaded := true } ∧
      applyVehicles st .transportError = { st with vehicles := [] }) := by
  refine ⟨?_, ?_, ?_, fun st => ⟨rfl, rfl⟩⟩
  · intro s d s₁ h hd hne hr
    rw [selectDirection_effect s d s₁ h hd hne hr]
    exact ⟨rfl, rfl⟩
  · intro st res
    cases res with
    | transportError => exact ⟨rfl, rfl⟩
    | response o => cases o <;> exact ⟨rfl, rfl⟩
  · intro st res
    cases res with
    | transportError => exact ⟨rfl, rfl, rfl⟩
    | response o => cases o <;> exact ⟨rfl, rfl, rfl⟩

/-- Witness for the amended theorem of claim C4: its direction-change clause
applied to the concrete state reached after route "22" and its directions
have loaded. -/
theorem c4_amended_witness : (1 : Nat) = 0 + 1 ∧ (1 : Nat) = 0 + 1 :=
  c4_amended_independent_fetches.1
    { initSys with
        st := { initState with
                  routes := [⟨"22", "Clark"⟩],
                  selectedRoute := "22", directions := [⟨"Northbound"⟩] } }
    "Northbound"
    { initSys with
        st := { initState with
                  routes := [⟨"22", "Clark"⟩],
                  selectedRoute := "22", directions := [⟨"Northbound"⟩],
                  direction := "Northbound" },
        pendingStops := 1,
        pendingVehicles := 1 }
    (by decide) (by decide) (by decide) (by decide)

/-- Claim C9 counterexample: `stops` is not cleared when a new stops fetch
starts, so while the refetch for direction "Southbound" is pending
(`pendingStops = 1`, `stopsLoaded = false`) the stale stop list fetched for
"Northbound" is still rendered — the claim that neither the message nor a
stop list is shown while the fetch is pending fails. -/
theorem c9_stale_stop_list_while_pending :
    (run initSys
      [Event.routesArrive (.response (some ⟨some [⟨"22", "Clark"⟩]⟩)),
       Event.selectRoute "22",
       Event.directionsArrive "22"
         (.response (some ⟨some [⟨"Northbound"⟩, ⟨"Southbound"⟩]⟩)),
       Event.selectDirection "Northbound",
       Event.stopsArrive (.response (some ⟨some [⟨"1", "Clark and Howard"⟩]⟩)),
       Event.vehiclesArrive (.response (some ⟨some []⟩)),
       Event.selectDirection "Southbound"]).map
      (fun s => (s.pendingStops, s.st.stopsLoaded, showsStopList s.st,
                 showsNoStopData s.st))
      = some (1, false, true, false) := by
  decide

/-- Claim C9 as amended: `stopsLoaded` is reset to false at the start of
every stops fetch and set to true exactly on completion (success or
failure); the "no stop data available" message is rendered exactly when a
direction is selected, `stops` is empty and `stopsLoaded` is true — never
while the fetch is pending.  A stale stop list from the previous selection,
however, can remain visible during the refetch because `stops` itself is
not cleared at fetch start. -/
theorem c9_amended_stops_loaded_flag :
    (∀ (s : Sys) (d : String) (s₁ : Sys),
      step s (Event.selectDirection d) = some s₁ → d ≠ "" → d ≠ s.st.direction →
      s.st.selectedRoute ≠ "" →
      s₁.st.stopsLoaded = false ∧ s₁.pendingStops = s.pendingStops + 1 ∧
      s₁.st.stops = s.st.stops) ∧
    (∀ (st : AppState) (res : FetchOutcome BusStop),
      (applyStops st res).stopsLoaded = true) ∧
    (∀ st : AppState, showsNoStopData st = true ↔
      st.direction ≠ "" ∧ st.stops = [] ∧ st.stopsLoaded = true) ∧
    (∀ st : AppState, st.stopsLoaded = false → showsNoStopData st = false) := by
  refine ⟨?_, ?_, ?_, ?_⟩
  · intro s d s₁ h hd hne hr
    rw [selectDirection_effect s d s₁ h hd hne hr]
    exact ⟨rfl, rfl, rfl⟩
  · intro st res
    cases res with
    | transportError => rfl
    | response o => cases o <;> rfl
  · intro st
    simp [showsNoStopData, List.isEmpty_iff, Bool.and_eq_true, decide_eq_true_eq,
      and_assoc]
  · intro st hf
    simp [showsNoStopData, hf]

/-- Witness for the amended theorem of claim C9: its direction-change clause
applied to the concrete state reached after route "22" and its directions
have loaded. -/
theorem c9_amended_witness :
    (false = false) ∧ (1 : Nat) = 0 + 1 ∧ ([] : List BusStop) = [] :=
  c9_amended_stops_loaded_flag.1
    { initSys with
        st := { initState with
                  routes := [⟨"22", "Clark"⟩],
                  selectedRoute := "22", directions := [⟨"Northbound"⟩] } }
    "Northbound"
    { initSys with
        st := { initState with
                  routes := [⟨"22", "Clark"⟩],
                  selectedRoute := "22", directions := [⟨"Northbound"⟩],
                  direction := "Northbound" },
        pendingStops := 1,
        pendingVehicles := 1 }
    (by decide) (by decide) (by decide) (by decide)

end BusTracker
